import Mathlib

set_option autoImplicit false

/-!
Shallow embedding of the core RPC subsystem of the atlassian-mcp repository:
the retry policy (src/utils/retry.ts), the server-side tool registry and
command dispatcher (MCPServer), and the client-side request correlator and
connection handling (src/mcp/client/MCPClient.ts).
-/

namespace AtlassianMCP

/-! ### Retry policy, from src/utils/retry.ts -/

/-- RetryConfig from src/utils/retry.ts. -/
structure RetryConfig where
  maxRetries : Nat
  retryDelay : Nat
  retryableStatusCodes : List Nat

/-- defaultRetryConfig from src/utils/retry.ts. -/
def defaultRetryConfig : RetryConfig :=
  { maxRetries := 3, retryDelay := 1000, retryableStatusCodes := [429, 500, 502, 503, 504] }

/-- A failure thrown by the wrapped operation: either an MCPRequestError
carrying an optional HTTP status (src/utils/errors.ts), or any other thrown
value (not an MCPRequestError). -/
inductive OpFailure where
  | request (status : Option Nat)
  | other
deriving DecidableEq

/-- The JavaScript expression `error.status || 0`: an absent status is
treated as 0 (and 0 itself is falsy, so it also yields 0). -/
def statusOrZero : Option Nat → Nat
  | some s => s
  | none => 0

/-- The retry loop of withRetry (src/utils/retry.ts lines 21-41), embedded
with the operation given as the per-attempt outcome sequence.  `fuel` is the
number of loop iterations still allowed by the loop bound
`attempt <= maxRetries` (initially `maxRetries + 1`); the explicit
`attempt = maxRetries` test mirrors line 35 of the source.  The result pairs
the propagated outcome with the number of times the operation was invoked.
The fuel-exhausted branch corresponds to the trailing `throw lastError`
after the loop, which is unreachable from attempt 0. -/
def withRetryLoop {α : Type} (operation : Nat → Except OpFailure α) (config : RetryConfig) :
    Nat → Nat → Except OpFailure α × Nat
  | _attempt, 0 => (.error .other, 0)
  | attempt, _fuel + 1 =>
    match operation attempt with
    | .ok v => (.ok v, 1)
    | .error .other => (.error .other, 1)
    | .error (.request st) =>
      if (config.retryableStatusCodes.contains (statusOrZero st)) = false then
        (.error (.request st), 1)
      else if attempt = config.maxRetries then
        (.error (.request st), 1)
      else
        let r := withRetryLoop operation config (attempt + 1) _fuel
        (r.1, r.2 + 1)

/-- withRetry from src/utils/retry.ts: run the loop from attempt 0 with the
full iteration budget `maxRetries + 1`. -/
def withRetry {α : Type} (operation : Nat → Except OpFailure α) (config : RetryConfig) :
    Except OpFailure α × Nat :=
  withRetryLoop operation config 0 (config.maxRetries + 1)

/-! ### Protocol data model

The file src/mcp/protocol/types.ts is imported by both MCPServer and
MCPClient but is not present under src/; the shapes below follow its use
sites in those files together with the spec's §3/§6 descriptor shapes. -/

/-- An opaque JavaScript value, as carried in `params`, `data`, handler
results and thrown values.  `jerror m` is an `Error` instance whose
`.message` is `m`; every other constructor is a non-`Error` value. -/
inductive JSVal where
  | null
  | jbool (b : Bool)
  | jnum (n : Int)
  | jstr (s : String)
  | jobj (fields : List (String × JSVal))
  | jerror (message : String)

/-- The expression `error instanceof Error ? error.message : 'Unknown error'`
(src/unnamed/part_004 line 150). -/
def jsErrorMessage : JSVal → String
  | .jerror m => m
  | _ => "Unknown error"

/-- Method descriptor of a tool (spec §3/§6; fields used by MCPServer:
`name`). -/
structure MCPMethodDescriptor where
  name : String
  description : String
deriving DecidableEq

/-- Tool descriptor (spec §3/§6; fields used by MCPServer: `name`,
`methods`). -/
structure MCPTool where
  name : String
  version : String
  description : String
  methods : List MCPMethodDescriptor
deriving DecidableEq

/-- Error payload of a Response (code, message, optional details). -/
structure MCPError where
  code : String
  message : String
  details : Option JSVal

/-- A command Message (type tag `command`). -/
structure MCPCommand where
  type : String
  id : String
  timestamp : Nat
  tool : String
  method : String
  params : List (String × JSVal)
  payload : List (String × JSVal)

/-- A response Message (type tag `response`). -/
structure MCPResponse where
  id : String
  timestamp : Nat
  commandId : String
  success : Bool
  data : Option JSVal
  error : Option MCPError

/-! ### JavaScript `Map` on string keys, as an insertion-ordered
association list: `set` overwrites in place or appends, `get` finds the
entry, `delete` removes it. -/

/-- Map.set: overwrite the value under an existing key in place, otherwise
append the new entry. -/
def mapSet {V : Type} (m : List (String × V)) (k : String) (v : V) : List (String × V) :=
  if m.any (fun kv => kv.1 == k) then
    m.map (fun kv => if kv.1 == k then (k, v) else kv)
  else
    m ++ [(k, v)]

/-- Map.get: the value under `k`, if present. -/
def mapGet {V : Type} (m : List (String × V)) (k : String) : Option V :=
  match m.find? (fun kv => kv.1 == k) with
  | some kv => some kv.2
  | none => none

/-- Map.delete: remove the entry under `k`. -/
def mapDelete {V : Type} (m : List (String × V)) (k : String) : List (String × V) :=
  m.filter (fun kv => (kv.1 == k) = false)

/-! ### String helpers

JavaScript `key.startsWith(p)` and `toolName.split('.')`, written over the
character lists of the strings so that they compute by structural
recursion. -/

/-- JavaScript `s.startsWith(p)`: `p`'s characters are an initial segment
of `s`'s. -/
def strStartsWith (s p : String) : Bool :=
  p.data.isPrefixOf s.data

/-- Split a character list at every '.', accumulating the current segment
in reverse. -/
def splitCharsOnDot : List Char → List Char → List String
  | [], acc => [String.mk acc.reverse]
  | c :: cs, acc =>
    if c = '.' then String.mk acc.reverse :: splitCharsOnDot cs []
    else splitCharsOnDot cs (c :: acc)

/-- JavaScript `s.split('.')`: the segments of `s` between dots (an empty
string yields one empty segment, as in JS). -/
def splitOnDot (s : String) : List String :=
  splitCharsOnDot s.data []

/-! ### MCPServer: tool registry and command dispatcher
(src/unnamed/part_004) -/

/-- A registered command handler: invoked with the command, it either
resolves with a value or raises a thrown value. -/
def CommandHandler : Type := MCPCommand → Except JSVal JSVal

/-- The mutable fields of MCPServer that the registry and dispatcher use:
`tools` and `commandHandlers` (src/unnamed/part_004 lines 14-16). -/
structure MCPServerState where
  tools : List (String × MCPTool)
  commandHandlers : List (String × CommandHandler)

/-- The handler body that registerTool installs for every method:
`async () => ({ success: true })` (src/unnamed/part_004 lines 37-40). -/
def stubHandler : CommandHandler := fun _command => .ok (.jobj [("success", .jbool true)])

/-- MCPServer.registerTool (src/unnamed/part_004 lines 30-42): store the
tool under its name, then set a handler under `tool.name + "." +
method.name` for each method in order. -/
def registerTool (s : MCPServerState) (tool : MCPTool) : MCPServerState :=
  { tools := mapSet s.tools tool.name tool
    commandHandlers :=
      tool.methods.foldl
        (fun hs m => mapSet hs (tool.name ++ "." ++ m.name) stubHandler)
        s.commandHandlers }

/-- MCPServer.unregisterTool (src/unnamed/part_004 lines 44-56): delete the
tool from `tools`, then for each segment of `toolName.split('.')` delete
every handler whose key satisfies `key.startsWith(segment)`.  (Deleting
while iterating a JS Map visits each remaining entry once, so the inner
loop is a filter.) -/
def unregisterTool (s : MCPServerState) (toolName : String) : MCPServerState :=
  { tools := mapDelete s.tools toolName
    commandHandlers :=
      (splitOnDot toolName).foldl
        (fun hs seg => hs.filter (fun kv => (strStartsWith kv.1 seg) = false))
        s.commandHandlers }

/-- Result of one MCPServer.handleCommand run: the list of Responses passed
to sendResponse (in order), and how many times a handler was invoked. -/
structure DispatchResult where
  emitted : List MCPResponse
  handlerCalls : Nat
deriving Inhabited

/-- MCPServer.handleCommand (src/unnamed/part_004 lines 111-165).  `freshId`
and `now` stand for the `uuidv4()` and `Date.now()` of the emitted
Response.  Exactly one of the three source paths runs: handler missing
(HANDLER_NOT_FOUND), handler resolves (success), handler raises
(EXECUTION_ERROR). -/
def handleCommand (s : MCPServerState) (command : MCPCommand) (freshId : String) (now : Nat) :
    DispatchResult :=
  match mapGet s.commandHandlers (command.tool ++ "." ++ command.method) with
  | none =>
    { emitted := [{ id := freshId, timestamp := now, commandId := command.id,
                    success := false, data := none,
                    error := some { code := "HANDLER_NOT_FOUND",
                                    message := "No handler found for command: "
                                      ++ (command.tool ++ "." ++ command.method),
                                    details := none } }]
      handlerCalls := 0 }
  | some handler =>
    match handler command with
    | .ok result =>
      { emitted := [{ id := freshId, timestamp := now, commandId := command.id,
                      success := true, data := some result, error := none }]
        handlerCalls := 1 }
    | .error e =>
      { emitted := [{ id := freshId, timestamp := now, commandId := command.id,
                      success := false, data := none,
                      error := some { code := "EXECUTION_ERROR",
                                      message := jsErrorMessage e,
                                      details := some e } }]
        handlerCalls := 1 }

/-! ### MCPClient: request correlator
(src/mcp/client/MCPClient.ts lines 106-139)

The correlator is event-driven: sendAndWaitForResponse installs a timeout
and a handler under the message id; the inbound-message callback, the
timeout callback and the send-failure callback each settle the promise and
clean the table.  We model it as a step function over the observable state:
which ids have an entry in `messageHandlers`, which ids have an active
(uncleared, unfired) timer, which promises are already settled (a JS
promise settles at most once: later resolve/reject calls are no-ops), and
the log of outcomes actually delivered. -/

/-- The outcome delivered to one pending request's promise. -/
inductive COutcome where
  | resolvedWith (response : MCPResponse)
  | timedOut
  | sendFailed

/-- Observable correlator state of one MCPClient. -/
structure CorrelatorState where
  handlers : List String
  timers : List String
  settled : List String
  outcomes : List (String × COutcome)

/-- The state of a freshly constructed client: no pending requests. -/
def initCorrelator : CorrelatorState :=
  { handlers := [], timers := [], settled := [], outcomes := [] }

/-- Settle the promise of request `id` with outcome `o`.  A JS promise
settles at most once, so a settle call on an already-settled promise
changes nothing. -/
def settlePromise (s : CorrelatorState) (id : String) (o : COutcome) : CorrelatorState :=
  if id ∈ s.settled then s
  else { s with settled := id :: s.settled, outcomes := (id, o) :: s.outcomes }

/-- Key insertion with JS `Map.set` semantics on a key list: a Map cannot
hold two entries under one key, so inserting an existing key leaves the key
list unchanged. -/
def insertKey (k : String) (l : List String) : List String :=
  if k ∈ l then l else k :: l

/-- The correlator events, one per callback in the source:
`start` is the body of sendAndWaitForResponse on a live connection
(setTimeout at line 112, messageHandlers.set at line 117);
`response` is handleMessage receiving a response Message (lines 131-139);
`timeoutFire` is the timeout callback firing (lines 112-115);
`sendFail` is the send-rejection callback (lines 123-127). -/
inductive CEvent where
  | start (id : String)
  | response (resp : MCPResponse)
  | timeoutFire (id : String)
  | sendFail (id : String)

/-- One correlator step (src/mcp/client/MCPClient.ts lines 106-139).
The response path runs the stored handler only when `commandId` is tracked
(line 135: `if (handler)`), and that handler clears the timer, deletes the
table entry and resolves.  The timeout callback can only fire while its
timer is still active; it deletes the table entry and rejects with the
timeout error.  The send-failure callback clears the timer, deletes the
table entry and rejects with the transmit error. -/
def corrStep (s : CorrelatorState) : CEvent → CorrelatorState
  | .start id =>
    { s with handlers := insertKey id s.handlers, timers := insertKey id s.timers }
  | .response resp =>
    if resp.commandId ∈ s.handlers then
      settlePromise
        { s with timers := s.timers.erase resp.commandId,
                 handlers := s.handlers.erase resp.commandId }
        resp.commandId (.resolvedWith resp)
    else s
  | .timeoutFire id =>
    if id ∈ s.timers then
      settlePromise
        { s with timers := s.timers.erase id, handlers := s.handlers.erase id }
        id .timedOut
    else s
  | .sendFail id =>
    settlePromise
      { s with timers := s.timers.erase id, handlers := s.handlers.erase id }
      id .sendFailed

/-- What the synchronous part of sendAndWaitForResponse does before any
callback runs: whether it threw, the correlator state it leaves, whether it
handed the message to connection.send, and whether it started the timeout
timer. -/
structure SendStartResult where
  thrown : Option String
  state : CorrelatorState
  transmitted : Bool
  timerStarted : Bool

/-- MCPClient.sendAndWaitForResponse entry (src/mcp/client/MCPClient.ts
lines 106-128): with no connection it throws 'Not connected to MCP server'
before creating the promise, the timer, the table entry, or sending;
otherwise it starts the timer, installs the handler under the message id
and transmits. -/
def sendAndWaitForResponseStart (connection : Bool) (s : CorrelatorState) (messageId : String) :
    SendStartResult :=
  if connection = false then
    { thrown := some "Not connected to MCP server", state := s,
      transmitted := false, timerStarted := false }
  else
    { thrown := none, state := corrStep s (.start messageId),
      transmitted := true, timerStarted := true }

/-- MCPClient.registerTool (lines 60-69): build a register Message with a
fresh id and send it through sendAndWaitForResponse. -/
def clientRegisterTool (connection : Bool) (s : CorrelatorState) (_tool : MCPTool)
    (freshId : String) (_now : Nat) : SendStartResult :=
  sendAndWaitForResponseStart connection s freshId

/-- MCPClient.unregisterTool (lines 71-80): build an unregister Message
with a fresh id and send it through sendAndWaitForResponse. -/
def clientUnregisterTool (connection : Bool) (s : CorrelatorState) (_toolName : String)
    (freshId : String) (_now : Nat) : SendStartResult :=
  sendAndWaitForResponseStart connection s freshId

/-- The command Message built by MCPClient.executeCommand (lines 87-95). -/
def buildCommand (tool method : String) (params : List (String × JSVal))
    (freshId : String) (now : Nat) : MCPCommand :=
  { type := "command", id := freshId, timestamp := now,
    tool := tool, method := method, params := params, payload := params }

/-- MCPClient.executeCommand up to the await (lines 82-97): build the
command Message and hand it to sendAndWaitForResponse, which tracks it
under the command's own id. -/
def clientExecuteCommandStart (connection : Bool) (s : CorrelatorState) (tool method : String)
    (params : List (String × JSVal)) (freshId : String) (now : Nat) :
    MCPCommand × SendStartResult :=
  let command := buildCommand tool method params freshId now
  (command, sendAndWaitForResponseStart connection s command.id)

/-- MCPClient.executeCommand after the awaited Response arrives (lines
99-103): `if (!response.success) throw new Error(response.error?.message ||
'Command execution failed'); return response.data`.  `response.error?.message`
is undefined when `error` is absent, and `||` falls back on the empty
string as well. -/
def executeCommandFinish (response : MCPResponse) : Except String (Option JSVal) :=
  if response.success = false then
    .error
      (let m := match response.error with
        | some e => e.message
        | none => ""
      if m = "" then "Command execution failed" else m)
  else
    .ok response.data

/-! ### MCPClient: connection and reconnection
(src/mcp/client/MCPClient.ts lines 27-58, 141-162) -/

/-- The connection-related mutable fields of MCPClient: whether
`this.connection` is set, and `this.reconnectAttempts`. -/
structure MCPClientConnState where
  connection : Bool
  reconnectAttempts : Nat
deriving DecidableEq

/-- MCPClient.connect (lines 27-46): establishes `this.connection`.  It
does not touch `reconnectAttempts`. -/
def clientConnect (s : MCPClientConnState) : MCPClientConnState :=
  { s with connection := true }

/-- The expression `this.options.maxReconnectAttempts || 5` (line 142):
an absent option — and, being falsy, an explicit 0 — yields 5. -/
def effectiveMaxReconnectAttempts : Option Nat → Nat
  | some n => if n = 0 then 5 else n
  | none => 5

/-- MCPClient.handleDisconnect (lines 141-162), run against a script of
`connectFailures` consecutive connect failures followed by a success.
Each round: if `reconnectAttempts < maxReconnectAttempts` it increments the
counter and schedules a reconnect; a successful connect resets the counter
to 0 (line 152), a failed connect re-enters handleDisconnect; otherwise it
throws 'Max reconnection attempts reached'.  The result is the final
`reconnectAttempts` on success, or the thrown message. -/
def handleDisconnectRun (maxReconnectAttempts : Option Nat) :
    Nat → Nat → Except String Nat
  | connectFailures, reconnectAttempts =>
    if reconnectAttempts < effectiveMaxReconnectAttempts maxReconnectAttempts then
      match connectFailures with
      | 0 => .ok 0
      | f + 1 => handleDisconnectRun maxReconnectAttempts f (reconnectAttempts + 1)
    else
      .error "Max reconnection attempts reached"

/-! ### Concrete sample inputs used by witnesses -/

/-- A tool named toolA with one method m. -/
def toolA : MCPTool :=
  { name := "toolA", version := "1.0.0", description := "tool A",
    methods := [{ name := "m", description := "method m" }] }

/-- A tool named toolAB — its name shares the leading substring toolA —
with one method n. -/
def toolAB : MCPTool :=
  { name := "toolAB", version := "1.0.0", description := "tool AB",
    methods := [{ name := "n", description := "method n" }] }

/-- A server with nothing registered. -/
def emptyServer : MCPServerState := { tools := [], commandHandlers := [] }

/-- A sample inbound command for jira.createIssue. -/
def sampleCommand : MCPCommand :=
  { type := "command", id := "c1", timestamp := 0, tool := "jira", method := "createIssue",
    params := [], payload := [] }

/-- A handler that raises an Error whose message is boom. -/
def failingHandler : CommandHandler := fun _command => .error (.jerror "boom")

/-- A server whose jira.createIssue handler raises. -/
def failingServer : MCPServerState :=
  { tools := [], commandHandlers := [("jira.createIssue", failingHandler)] }

/-- A response whose commandId b matches no tracked request. -/
def sampleResponseB : MCPResponse :=
  { id := "r9", timestamp := 1, commandId := "b", success := true, data := none, error := none }

/-- A successful response carrying data. -/
def okResponse : MCPResponse :=
  { id := "r2", timestamp := 2, commandId := "c1", success := true,
    data := some (.jnum 1), error := none }

/-- A failed response carrying an error payload. -/
def failResponse : MCPResponse :=
  { id := "r3", timestamp := 3, commandId := "c1", success := false, data := none,
    error := some { code := "EXECUTION_ERROR", message := "boom2", details := none } }

/-- Correlator invariant: no duplicate table keys, every delivered outcome
is recorded as settled, and no request has two outcomes. -/
def CorrInv (s : CorrelatorState) : Prop :=
  s.handlers.Nodup ∧ s.timers.Nodup ∧
  (∀ id, id ∈ s.outcomes.map Prod.fst → id ∈ s.settled) ∧
  (s.outcomes.map Prod.fst).Nodup

/-! ### Theorems -/

/-- Helper: one retried iteration of the loop — a retryable request
failure at an attempt below maxRetries defers to the next attempt and adds
one invocation. -/
theorem withRetryLoop_step {α : Type} (operation : Nat → Except OpFailure α)
    (config : RetryConfig) (attempt fuel : Nat) (st : Option Nat)
    (hop : operation attempt = .error (.request st))
    (hmem : config.retryableStatusCodes.contains (statusOrZero st) = true)
    (hne : ¬ attempt = config.maxRetries) :
    withRetryLoop operation config attempt (fuel + 1)
      = ((withRetryLoop operation config (attempt + 1) fuel).1,
         (withRetryLoop operation config (attempt + 1) fuel).2 + 1) := by
  conv_lhs => rw [withRetryLoop]
  rw [hop]
  dsimp only
  rw [if_neg (by simpa using hmem), if_neg hne]

/-- Helper: at attempt = maxRetries a retryable request failure is
propagated after this single invocation. -/
theorem withRetryLoop_exhaust {α : Type} (operation : Nat → Except OpFailure α)
    (config : RetryConfig) (fuel : Nat) (st : Option Nat)
    (hop : operation config.maxRetries = .error (.request st))
    (hmem : config.retryableStatusCodes.contains (statusOrZero st) = true) :
    withRetryLoop operation config config.maxRetries (fuel + 1)
      = (.error (.request st), 1) := by
  conv_lhs => rw [withRetryLoop]
  rw [hop]
  dsimp only
  rw [if_neg (by simpa using hmem), if_pos rfl]

/-- C2: with maxRetries = 3, an operation that fails on every attempt with
a request failure whose status is retryable is invoked exactly 4 times
(1 initial + 3 retries) and the last failure is propagated; an operation
whose first failure has a non-retryable status is invoked exactly once and
that failure is propagated. -/
theorem withRetry_retry_bound {α : Type} (operation : Nat → Except OpFailure α) :
    ((∀ n, ∃ st, operation n = .error (.request st) ∧
        defaultRetryConfig.retryableStatusCodes.contains (statusOrZero st) = true) →
      withRetry operation defaultRetryConfig = (operation 3, 4)) ∧
    ((∃ st, operation 0 = .error (.request st) ∧
        defaultRetryConfig.retryableStatusCodes.contains (statusOrZero st) = false) →
      withRetry operation defaultRetryConfig = (operation 0, 1)) := by
  constructor
  · intro hAll
    obtain ⟨s0, h0, c0⟩ := hAll 0
    obtain ⟨s1, h1, c1⟩ := hAll 1
    obtain ⟨s2, h2, c2⟩ := hAll 2
    obtain ⟨s3, h3, c3⟩ := hAll 3
    have r0 : withRetry operation defaultRetryConfig
        = withRetryLoop operation defaultRetryConfig 0 (3 + 1) := rfl
    have r3 : withRetryLoop operation defaultRetryConfig 3 (0 + 1)
        = (.error (.request s3), 1) :=
      withRetryLoop_exhaust operation defaultRetryConfig 0 s3 h3 c3
    rw [r0,
      withRetryLoop_step operation defaultRetryConfig 0 3 s0 h0 c0 (by decide),
      show (3 : Nat) = 2 + 1 from rfl,
      withRetryLoop_step operation defaultRetryConfig 1 2 s1 h1 c1 (by decide),
      show (2 : Nat) = 1 + 1 from rfl,
      withRetryLoop_step operation defaultRetryConfig 2 1 s2 h2 c2 (by decide),
      show (1 : Nat) = 0 + 1 from rfl,
      r3, h3]
  · intro hFirst
    obtain ⟨s0, h0, c0⟩ := hFirst
    have hm : statusOrZero s0 ∉ defaultRetryConfig.retryableStatusCodes := by simpa using c0
    simp [withRetry, withRetryLoop, h0, hm]

/-- Witness for withRetry_retry_bound: an always-503 operation is invoked
4 times; an always-400 operation is invoked once. -/
theorem withRetry_retry_bound_witness :
    withRetry (fun _ => (.error (.request (some 503)) : Except OpFailure Nat)) defaultRetryConfig
      = (.error (.request (some 503)), 4) ∧
    withRetry (fun _ => (.error (.request (some 400)) : Except OpFailure Nat)) defaultRetryConfig
      = (.error (.request (some 400)), 1) :=
  ⟨(withRetry_retry_bound _).1 (fun _n => ⟨some 503, rfl, by decide⟩),
   (withRetry_retry_bound _).2 ⟨some 400, rfl, by decide⟩⟩

/-- C3: a failure that is not a classified request failure is propagated
immediately with no further invocation of the operation, and so is a
request failure whose status is not retryable — both for any
configuration. -/
theorem withRetry_no_retry_on_unclassified {α : Type} (operation : Nat → Except OpFailure α)
    (config : RetryConfig) :
    (operation 0 = .error .other → withRetry operation config = (.error .other, 1)) ∧
    (∀ st, operation 0 = .error (.request st) →
      config.retryableStatusCodes.contains (statusOrZero st) = false →
      withRetry operation config = (.error (.request st), 1)) := by
  constructor
  · intro h0
    simp [withRetry, withRetryLoop, h0]
  · intro st h0 hc
    have hm : statusOrZero st ∉ config.retryableStatusCodes := by simpa using hc
    simp [withRetry, withRetryLoop, h0, hm]

/-- Witness for withRetry_no_retry_on_unclassified: a non-request failure
and a status-free request failure each propagate after one invocation. -/
theorem withRetry_no_retry_witness :
    withRetry (fun _ => (.error .other : Except OpFailure Nat)) defaultRetryConfig
      = (.error .other, 1) ∧
    withRetry (fun _ => (.error (.request none) : Except OpFailure Nat)) defaultRetryConfig
      = (.error (.request none), 1) :=
  ⟨(withRetry_no_retry_on_unclassified _ _).1 rfl,
   (withRetry_no_retry_on_unclassified _ _).2 none rfl (by decide)⟩

/-- C1: evaluation of the code at the failing input.  After registering
toolA (method m) and toolAB (method n), the routing entry toolAB.n is
present; unregisterTool("toolA") then deletes it, because the code removes
every handler whose key merely starts with the substring toolA — contrary
to the claimed exact tool.method comparison, toolAB's routing entries are
not left intact. -/
theorem unregisterTool_deletes_sibling_entries :
    (mapGet (registerTool (registerTool emptyServer toolA) toolAB).commandHandlers
        "toolAB.n").isSome = true ∧
    mapGet (registerTool (registerTool emptyServer toolA) toolAB).tools "toolAB" = some toolAB ∧
    (mapGet (unregisterTool (registerTool (registerTool emptyServer toolA) toolAB)
        "toolA").commandHandlers "toolAB.n").isSome = false := by
  refine ⟨rfl, rfl, rfl⟩

/-- C4: every run of handleCommand emits exactly one Response, whose
commandId is the inbound command's id, on all three paths (handler
missing, handler resolves, handler raises). -/
theorem handleCommand_exactly_one_response (s : MCPServerState) (command : MCPCommand)
    (freshId : String) (now : Nat) :
    ∃ r, (handleCommand s command freshId now).emitted = [r] ∧ r.commandId = command.id := by
  unfold handleCommand
  cases mapGet s.commandHandlers (command.tool ++ "." ++ command.method) with
  | none => exact ⟨_, rfl, rfl⟩
  | some handler =>
    dsimp only
    cases handler command with
    | ok v => exact ⟨_, rfl, rfl⟩
    | error e => exact ⟨_, rfl, rfl⟩

/-- C5: when no handler is registered under tool.method, handleCommand
emits the HANDLER_NOT_FOUND failure Response carrying the command's id,
and invokes no handler. -/
theorem handleCommand_handler_not_found (s : MCPServerState) (command : MCPCommand)
    (freshId : String) (now : Nat)
    (h : mapGet s.commandHandlers (command.tool ++ "." ++ command.method) = none) :
    handleCommand s command freshId now =
      { emitted := [{ id := freshId, timestamp := now, commandId := command.id,
                      success := false, data := none,
                      error := some { code := "HANDLER_NOT_FOUND",
                                      message := "No handler found for command: "
                                        ++ (command.tool ++ "." ++ command.method),
                                      details := none } }]
        handlerCalls := 0 } := by
  unfold handleCommand
  rw [h]

/-- Witness for handleCommand_handler_not_found: an empty registry turns a
jira.createIssue command into the HANDLER_NOT_FOUND Response. -/
theorem handleCommand_handler_not_found_witness :
    handleCommand emptyServer sampleCommand "r1" 7 =
      { emitted := [{ id := "r1", timestamp := 7, commandId := "c1",
                      success := false, data := none,
                      error := some { code := "HANDLER_NOT_FOUND",
                                      message := "No handler found for command: jira.createIssue",
                                      details := none } }]
        handlerCalls := 0 } :=
  handleCommand_handler_not_found emptyServer sampleCommand "r1" 7 rfl

/-- C6: when the registered handler raises, handleCommand emits a failure
Response with code EXECUTION_ERROR, message taken from the raised value,
and details equal to the raw raised value. -/
theorem handleCommand_execution_error (s : MCPServerState) (command : MCPCommand)
    (freshId : String) (now : Nat) (handler : CommandHandler) (e : JSVal)
    (hfind : mapGet s.commandHandlers (command.tool ++ "." ++ command.method) = some handler)
    (hfail : handler command = .error e) :
    handleCommand s command freshId now =
      { emitted := [{ id := freshId, timestamp := now, commandId := command.id,
                      success := false, data := none,
                      error := some { code := "EXECUTION_ERROR",
                                      message := jsErrorMessage e,
                                      details := some e } }]
        handlerCalls := 1 } := by
  unfold handleCommand
  rw [hfind]
  dsimp only
  rw [hfail]

/-- Witness for handleCommand_execution_error: a handler raising an Error
with message boom yields the EXECUTION_ERROR Response with message boom
and the raw error as details. -/
theorem handleCommand_execution_error_witness :
    handleCommand failingServer sampleCommand "r1" 7 =
      { emitted := [{ id := "r1", timestamp := 7, commandId := "c1",
                      success := false, data := none,
                      error := some { code := "EXECUTION_ERROR",
                                      message := "boom",
                                      details := some (.jerror "boom") } }]
        handlerCalls := 1 } :=
  handleCommand_execution_error failingServer sampleCommand "r1" 7 failingHandler
    (.jerror "boom") rfl rfl

/-- Helper: inserting a key with Map.set semantics keeps the key list
duplicate-free. -/
theorem insertKey_nodup (k : String) (l : List String) (h : l.Nodup) :
    (insertKey k l).Nodup := by
  unfold insertKey
  by_cases hmem : k ∈ l
  · simpa [hmem]
  · simpa [hmem] using h

/-- Helper: settling a promise preserves the correlator invariant. -/
theorem corrInv_settlePromise (s : CorrelatorState) (id : String) (o : COutcome)
    (h : CorrInv s) : CorrInv (settlePromise s id o) := by
  obtain ⟨hs, ht, hsub, hnd⟩ := h
  unfold settlePromise
  by_cases hmem : id ∈ s.settled
  · simp only [if_pos hmem]
    exact ⟨hs, ht, hsub, hnd⟩
  · simp only [if_neg hmem]
    refine ⟨hs, ht, ?_, ?_⟩
    · intro i hi
      simp only [List.map_cons, List.mem_cons] at hi ⊢
      rcases hi with h1 | h1
      · exact Or.inl h1
      · exact Or.inr (hsub i h1)
    · simp only [List.map_cons, List.nodup_cons]
      exact ⟨fun hmem2 => hmem (hsub id hmem2), hnd⟩

/-- Helper: every correlator event preserves the invariant. -/
theorem corrInv_step (s : CorrelatorState) (e : CEvent) (h : CorrInv s) :
    CorrInv (corrStep s e) := by
  obtain ⟨hs, ht, hsub, hnd⟩ := h
  cases e with
  | start id =>
    exact ⟨insertKey_nodup id s.handlers hs, insertKey_nodup id s.timers ht, hsub, hnd⟩
  | response resp =>
    unfold corrStep
    by_cases hmem : resp.commandId ∈ s.handlers
    · simp only [if_pos hmem]
      exact corrInv_settlePromise _ _ _ ⟨hs.erase _, ht.erase _, hsub, hnd⟩
    · simp only [if_neg hmem]
      exact ⟨hs, ht, hsub, hnd⟩
  | timeoutFire id =>
    unfold corrStep
    by_cases hmem : id ∈ s.timers
    · simp only [if_pos hmem]
      exact corrInv_settlePromise _ _ _ ⟨hs.erase _, ht.erase _, hsub, hnd⟩
    · simp only [if_neg hmem]
      exact ⟨hs, ht, hsub, hnd⟩
  | sendFail id =>
    exact corrInv_settlePromise _ _ _ ⟨hs.erase _, ht.erase _, hsub, hnd⟩

/-- Helper: the invariant is preserved along any event trace. -/
theorem corrInv_foldl (events : List CEvent) (s : CorrelatorState) (h : CorrInv s) :
    CorrInv (events.foldl corrStep s) := by
  induction events generalizing s with
  | nil => exact h
  | cons e es ih => exact ih _ (corrInv_step s e h)

/-- C7: over any trace of correlator events from a fresh client, every
request id receives at most one outcome and the pending-request table
never holds two entries under one id; an inbound Response whose commandId
matches no tracked id leaves any correlator state completely unchanged. -/
theorem correlator_single_outcome (events : List CEvent) :
    ((events.foldl corrStep initCorrelator).outcomes.map Prod.fst).Nodup ∧
    (events.foldl corrStep initCorrelator).handlers.Nodup ∧
    (∀ t resp, resp.commandId ∉ t.handlers → corrStep t (.response resp) = t) := by
  have h : CorrInv (events.foldl corrStep initCorrelator) :=
    corrInv_foldl events initCorrelator ⟨List.nodup_nil, List.nodup_nil, by simp [initCorrelator], by simp [initCorrelator]⟩
  refine ⟨h.2.2.2, h.1, ?_⟩
  intro t resp hmem
  simp [corrStep, hmem]

/-- Witness for correlator_single_outcome: a Response with untracked
commandId b leaves a state tracking only a unchanged, and after a start
and that response the table has no duplicate ids. -/
theorem correlator_single_outcome_witness :
    corrStep { handlers := ["a"], timers := ["a"], settled := [], outcomes := [] }
        (.response sampleResponseB)
      = { handlers := ["a"], timers := ["a"], settled := [], outcomes := [] } ∧
    (([CEvent.start "a", CEvent.response sampleResponseB].foldl corrStep
        initCorrelator).handlers).Nodup :=
  ⟨(correlator_single_outcome []).2.2 _ sampleResponseB (by decide),
   (correlator_single_outcome [CEvent.start "a", CEvent.response sampleResponseB]).2.1⟩

/-- C8: executeCommand builds a command Message with the given tool,
method and params under a fresh id, hands it to the correlator keyed by
that id, and maps the awaited Response: a failed Response raises the
Response's error message (falling back to a generic message when it is
absent or empty), a successful Response yields its data field. -/
theorem executeCommand_result_mapping (connection : Bool) (s : CorrelatorState)
    (tool method : String) (params : List (String × JSVal)) (freshId : String) (now : Nat)
    (response : MCPResponse) :
    ((clientExecuteCommandStart connection s tool method params freshId now).1 =
      { type := "command", id := freshId, timestamp := now, tool := tool, method := method,
        params := params, payload := params }) ∧
    ((clientExecuteCommandStart true s tool method params freshId now).2.state.handlers =
      insertKey freshId s.handlers) ∧
    (response.success = true → executeCommandFinish response = .ok response.data) ∧
    (response.success = false →
      ∃ msg, executeCommandFinish response = .error msg ∧
        (∀ e, response.error = some e → ¬ e.message = "" → msg = e.message) ∧
        (response.error = none → msg = "Command execution failed")) := by
  refine ⟨rfl, rfl, ?_, ?_⟩
  · intro hs
    simp [executeCommandFinish, hs]
  · intro hf
    cases he : response.error with
    | none =>
      refine ⟨"Command execution failed", ?_, ?_, fun _ => rfl⟩
      · simp [executeCommandFinish, hf, he]
      · intro e h1 _
        exact Option.noConfusion h1
    | some e0 =>
      by_cases hm : e0.message = ""
      · refine ⟨"Command execution failed", ?_, ?_, ?_⟩
        · simp [executeCommandFinish, hf, he, hm]
        · intro e h1 h2
          injection h1 with h1
          rw [← h1] at h2
          exact absurd hm h2
        · intro h1
          exact Option.noConfusion h1
      · refine ⟨e0.message, ?_, ?_, ?_⟩
        · simp [executeCommandFinish, hf, he, hm]
        · intro e h1 _
          injection h1 with h1
          rw [h1]
        · intro h1
          exact Option.noConfusion h1

/-- Witness for executeCommand_result_mapping: a successful Response
yields its data; a failed Response raises its error message. -/
theorem executeCommand_result_mapping_witness :
    executeCommandFinish okResponse = .ok okResponse.data ∧
    ∃ msg, executeCommandFinish failResponse = .error msg ∧
      (∀ e, failResponse.error = some e → ¬ e.message = "" → msg = e.message) ∧
      (failResponse.error = none → msg = "Command execution failed") :=
  ⟨(executeCommand_result_mapping true initCorrelator "jira" "m" [] "c1" 0 okResponse).2.2.1 rfl,
   (executeCommand_result_mapping true initCorrelator "jira" "m" [] "c1" 0
      failResponse).2.2.2 rfl⟩

/-- C9 counterexample: the claim predicts that after the attempt counter
reaches 5, an explicit connect() call restarts it at 0; in the code
connect() does not touch the counter, which stays 5. -/
theorem explicit_connect_does_not_reset_counter :
    ¬ ((clientConnect { connection := false, reconnectAttempts := 5 }).reconnectAttempts = 0) := by
  decide

/-- Helper: one reconnect round below the attempt cap — a failed connect
re-enters handleDisconnect with the counter incremented. -/
theorem handleDisconnectRun_step (maxO : Option Nat) (g a : Nat)
    (ha : a < effectiveMaxReconnectAttempts maxO) :
    handleDisconnectRun maxO (g + 1) a = handleDisconnectRun maxO g (a + 1) := by
  conv_lhs => rw [handleDisconnectRun]
  rw [if_pos ha]

/-- Helper: once the counter reaches the cap of 5, handleDisconnect throws
regardless of how the remaining connect attempts would behave. -/
theorem handleDisconnectRun_stop (g : Nat) :
    handleDisconnectRun (some 5) g 5 = .error "Max reconnection attempts reached" := by
  cases g <;> rfl

/-- C9 (amended): with maxReconnectAttempts = 5, five consecutive connect
failures after link loss make handleDisconnect fail with the
max-reconnect-attempts condition; a successful scheduled reconnect resets
the attempt counter to 0; an explicit connect() call leaves the attempt
counter unchanged (it does not restart it at 0). -/
theorem reconnect_attempt_counting (f k : Nat) (hk : k < 5) (s : MCPClientConnState) :
    handleDisconnectRun (some 5) (f + 5) 0 = .error "Max reconnection attempts reached" ∧
    handleDisconnectRun (some 5) k 0 = .ok 0 ∧
    (clientConnect s).reconnectAttempts = s.reconnectAttempts := by
  refine ⟨?_, ?_, rfl⟩
  · rw [show f + 5 = (f + 4) + 1 from rfl, handleDisconnectRun_step _ _ _ (by decide),
        show f + 4 = (f + 3) + 1 from rfl, handleDisconnectRun_step _ _ _ (by decide),
        show f + 3 = (f + 2) + 1 from rfl, handleDisconnectRun_step _ _ _ (by decide),
        show f + 2 = (f + 1) + 1 from rfl, handleDisconnectRun_step _ _ _ (by decide),
        handleDisconnectRun_step _ _ _ (by decide), handleDisconnectRun_stop f]
  · interval_cases k <;> rfl

/-- Witness for reconnect_attempt_counting: five straight failures throw,
three failures then a success reset the counter to 0, and connect() keeps
a counter of 5 at 5. -/
theorem reconnect_attempt_counting_witness :
    handleDisconnectRun (some 5) 5 0 = .error "Max reconnection attempts reached" ∧
    handleDisconnectRun (some 5) 3 0 = .ok 0 ∧
    (clientConnect { connection := false, reconnectAttempts := 5 }).reconnectAttempts = 5 :=
  reconnect_attempt_counting 0 3 (by decide) { connection := false, reconnectAttempts := 5 }

/-- C10: with no established connection, sendAndWaitForResponse — and
registerTool, unregisterTool and executeCommand, which all go through it —
throws 'Not connected to MCP server' immediately, transmits nothing,
starts no timeout, and leaves the pending-request table untouched. -/
theorem not_connected_rejects_immediately (s : CorrelatorState) (tool : MCPTool)
    (toolName t m : String) (params : List (String × JSVal)) (freshId : String) (now : Nat) :
    sendAndWaitForResponseStart false s freshId =
      { thrown := some "Not connected to MCP server", state := s,
        transmitted := false, timerStarted := false } ∧
    clientRegisterTool false s tool freshId now =
      { thrown := some "Not connected to MCP server", state := s,
        transmitted := false, timerStarted := false } ∧
    clientUnregisterTool false s toolName freshId now =
      { thrown := some "Not connected to MCP server", state := s,
        transmitted := false, timerStarted := false } ∧
    (clientExecuteCommandStart false s t m params freshId now).2 =
      { thrown := some "Not connected to MCP server", state := s,
        transmitted := false, timerStarted := false } := by
  exact ⟨rfl, rfl, rfl, rfl⟩

end AtlassianMCP
